import Mathlib

/-!
Shallow embedding of the core of the whatsapp-bot repository, together with
theorems settling the frozen claims about its specification.

Conventions used throughout:
* JavaScript string falsiness (`!s` true for `undefined`, `null` and `""`)
  is modelled by `Option String` with `truthyStr`.
* Asynchronous methods are modelled as pure functions from their inputs and
  the relevant service state to the list of externally visible effects they
  perform, in program order.
* Machine timers, sockets and AMQP channels are modelled by their presence
  (`Bool` / `Option`) plus the data the code reads from them.
-/

namespace WhatsappBot

/-- JS truthiness of a possibly-absent string: `undefined`/`null` map to
`none`, and the empty string is falsy. -/
def truthyStr : Option String → Bool
  | none => false
  | some s => s ≠ ""

/-- JS `String.prototype.includes` with a single-character needle, written
over the character list so that it evaluates inside the kernel. -/
def includesChar (s : String) (c : Char) : Bool :=
  s.data.any (fun a => a = c)

/-! ## Outbound consumer: `WhatsappSendCommandConsumer.handleMessage`
(src/whatsapp/whatsapp-sender.service.ts, consumer part, lines 189-336). -/

/-- AMQP message properties read by the consumer (`msg.properties`). -/
structure AmqpProps where
  correlationId : Option String
  messageId : Option String
  deriving Repr, DecidableEq

/-- A non-null message delivered by the broker client (`amqp.ConsumeMessage`):
its body as a string (`msg.content.toString()`) and its properties. -/
structure ConsumedMsg where
  content : String
  properties : AmqpProps
  deriving Repr, DecidableEq

/-- The shape `JSON.parse` output is read through (`MessageContent` in the
source): the fields `to`, `text`, `correlationId`, each possibly absent. -/
structure MessageContent where
  «to» : Option String
  text : Option String
  correlationId : Option String
  deriving Repr, DecidableEq

/-- A manual-acknowledgement operation issued on the channel.
`nackDiscard` is `channel.nack(msg, false, false)` (reject, no requeue),
`nackRequeue` is `channel.nack(msg, false, true)` (reject, requeue). -/
inductive ChannelOp where
  | ack
  | nackDiscard
  | nackRequeue
  deriving Repr, DecidableEq

/-- An invocation of `messageSender.sendMessage(formattedTo, content.text, _)`.
The third argument (correlation id) is logging metadata only and the sender
interface ignores it, so it is not recorded. -/
structure SendCall where
  «to» : String
  text : String
  deriving Repr, DecidableEq

/-- Externally visible result of one `handleMessage` run: the channel
operations issued and the sender invocations made, each in program order. -/
structure HandleResult where
  ops : List ChannelOp
  sends : List SendCall
  deriving Repr, DecidableEq

namespace WhatsappSendCommandConsumer

/-- `WhatsappSendCommandConsumer.handleMessage`, lines 189-336 of the consumer
source, as a pure function of its inputs at the suspension points:

* `parse` — the behaviour of `JSON.parse` on the body followed by the cast to
  `MessageContent`; `none` models a thrown parse error. A parse producing a
  non-object value (for which the later field accesses throw and land in the
  catch-all, which also nacks without requeue when the channel is present) is
  modelled by `some` of a record with falsy fields, which reaches the same
  channel operations.
* `channelOpen` — whether `this.channel` is non-null while the message is
  handled (it is read twice on the parse-failure path via `this.channel?.` and
  once at the explicit availability check; the field is not reassigned between
  those reads within one run).
* `waConnected` — the value of `this.messageSender.isConnected()`.
* `sendResult` — the boolean the awaited `sendMessage` call resolves to
  (the sender catches internally and never throws).
* `msg` — the delivered message, `none` for a null delivery.

The correlation-id bookkeeping (lines 204-230) only affects log output and is
elided. -/
def handleMessage (parse : String → Option MessageContent)
    (channelOpen waConnected sendResult : Bool)
    (msg : Option ConsumedMsg) : HandleResult :=
  match msg with
  | none =>
    -- lines 190-196: null message, return without any channel operation
    { ops := [], sends := [] }
  | some m =>
    match parse m.content with
    | none =>
      -- lines 212-226: parse failure, `this.channel?.nack(msg, false, false)`
      { ops := if channelOpen then [.nackDiscard] else [], sends := [] }
    | some content =>
      if !channelOpen then
        -- lines 234-240: channel lost, cannot ack or nack, return
        { ops := [], sends := [] }
      else if !(truthyStr content.«to» && truthyStr content.text) then
        -- lines 244-251: missing or empty `to` or `text`, discard
        { ops := [.nackDiscard], sends := [] }
      else if !waConnected then
        -- lines 255-261: WhatsApp gateway down, requeue
        { ops := [.nackRequeue], sends := [] }
      else
        -- lines 264-291: format the recipient inline and send
        match content.«to», content.text with
        | some toV, some text =>
          let formattedTo := if includesChar toV '@' then toV
            else toV ++ "@s.whatsapp.net"
          if sendResult then
            { ops := [.ack], sends := [{ «to» := formattedTo, text := text }] }
          else
            { ops := [.nackDiscard],
              sends := [{ «to» := formattedTo, text := text }] }
        | _, _ =>
          -- unreachable: guarded by the truthiness check above
          { ops := [.nackDiscard], sends := [] }

end WhatsappSendCommandConsumer

/-! ## Sender: `WhatsappSenderService.getFormattedJid`
(src/whatsapp/whatsapp-sender.service.ts lines 48-60). -/

namespace WhatsappSenderService

/-- `getFormattedJid`: keep identifiers that already carry a domain, suffix
identifiers shorter than 14 characters with the direct-chat domain, and
longer ones with the group domain. -/
def getFormattedJid (toV : String) : String :=
  if includesChar toV '@' then toV
  else if toV.length < 14 then toV ++ "@s.whatsapp.net"
  else toV ++ "@g.us"

end WhatsappSenderService

/-! ## Reconnect backoff
(src/whatsapp/whatsapp-connection.service.ts lines 23-26 and 230-234,
src/amqp/amqp-connection.service.ts lines 12-15 and 113-117).

Both services compute
`Math.min(INITIAL_RECONNECT_DELAY * Math.pow(RECONNECT_FACTOR, attempts), MAX_RECONNECT_DELAY)`
with `INITIAL_RECONNECT_DELAY = 5000`, `RECONNECT_FACTOR = 2`,
`MAX_RECONNECT_DELAY = 60000`. The JS arithmetic is exact on these values for
every attempt count below the double-precision integer limit, and once the
product exceeds the cap the minimum is the cap, so `Nat` arithmetic is a
faithful model. -/

/-- Delay computed inside `WhatsappConnectionService.scheduleReconnect`. -/
def waReconnectDelay (attempts : Nat) : Nat :=
  min (5000 * 2 ^ attempts) 60000

/-- Delay computed inside `AmqpConnectionService.scheduleReconnect`. -/
def amqpReconnectDelay (attempts : Nat) : Nat :=
  min (5000 * 2 ^ attempts) 60000

/-! ## WhatsApp connection manager state
(src/whatsapp/whatsapp-connection.service.ts). -/

/-- The part of a Baileys socket the service reads: `sock.user`, populated
when the session is authenticated. When a socket is created from restored
credentials on disk, the library fills `user` from the stored identity at
creation time, before the connection reports `open`. -/
structure WASocketHandle where
  user : Option String
  deriving Repr, DecidableEq

/-- Mutable fields of `WhatsappConnectionService` that its public behaviour
depends on, plus one ghost flag:

* `sock` — the `sock` field (`none` for `null`);
* `storeContacts` — the `store` field, `none` for `null` and `some n` for a
  store whose `contacts` object has `n` keys;
* `isConnecting`, `reconnectTimeoutArmed`, `reconnectAttempts` — the guard
  flag, whether the `reconnectTimeout` handle is set, and the attempt counter;
* `opened` — ghost marker for the Open state of the specification: set when
  a `connection.update` with `connection = 'open'` arrives, cleared when the
  connection closes or a new connect attempt begins. -/
structure WAState where
  isConnecting : Bool
  reconnectTimeoutArmed : Bool
  reconnectAttempts : Nat
  sock : Option WASocketHandle
  storeContacts : Option Nat
  opened : Bool
  deriving Repr, DecidableEq

namespace WhatsappConnectionService

/-- Field values at construction (lines 36-43). -/
def waInit : WAState :=
  { isConnecting := false, reconnectTimeoutArmed := false,
    reconnectAttempts := 0, sock := none, storeContacts := none,
    opened := false }

/-- `isConnected()` (lines 74-83):
`!!this.sock?.user || (!!this.store && Object.keys(this.store.contacts).length > 0)`. -/
def isConnected (s : WAState) : Bool :=
  (match s.sock with
   | some h => h.user.isSome
   | none => false)
  || (match s.storeContacts with
      | some n => decide (0 < n)
      | none => false)

/-- External effects of the connection routines that matter to the claims. -/
inductive WAAction where
  | preDisconnect
  | openSocket
  deriving Repr, DecidableEq

/-- `scheduleReconnect()` (lines 224-245): a no-op when a connect is in
progress or the timer is already armed; otherwise arms the timer for
`waReconnectDelay reconnectAttempts`. Returns the new state and the armed
delay, if any. -/
def scheduleReconnect (s : WAState) : WAState × Option Nat :=
  if s.isConnecting || s.reconnectTimeoutArmed then (s, none)
  else ({ s with reconnectTimeoutArmed := true },
        some (waReconnectDelay s.reconnectAttempts))

/-- `connectToWhatsApp()` (lines 85-164), run to the point where the new
socket exists (the success path of the `try`). Guarded at entry by
`isConnecting`. On the unguarded path it sets the flag, clears the pending
reconnect timer, emits `pre-disconnect` and tears down any previous socket,
creates a fresh in-memory store (zero contacts) and a fresh socket whose
`user` is `restoredUser` (the identity restored from the session directory,
or `none` on a first run). `isConnecting` stays set until a
`connection.update` arrives. -/
def connectToWhatsAppOk (restoredUser : Option String) (s : WAState) :
    WAState × List WAAction :=
  if s.isConnecting then (s, [])
  else
    ({ isConnecting := true, reconnectTimeoutArmed := false,
       reconnectAttempts := s.reconnectAttempts,
       sock := some { user := restoredUser }, storeContacts := some 0,
       opened := false },
     (if s.sock.isSome then [.preDisconnect] else []) ++ [.openSocket])

/-- `connectToWhatsApp()` when the `try` body throws (lines 155-163): the
flag is reset, the attempt counter incremented, and a reconnect scheduled.
The socket stays cleared (the old one was nulled by the pre-cleanup, no new
one was assigned); the store keeps whatever value the body reached. -/
def connectToWhatsAppErr (s : WAState) : WAState × List WAAction :=
  if s.isConnecting then (s, [])
  else
    ((scheduleReconnect
        { isConnecting := false, reconnectTimeoutArmed := false,
          reconnectAttempts := s.reconnectAttempts + 1, sock := none,
          storeContacts := s.storeContacts, opened := false }).1,
     if s.sock.isSome then [.preDisconnect] else [])

/-- The `connection === 'close'` branch of the `connection.update` listener
(lines 181-210): reset the flag, null the socket and store, emit
`pre-disconnect` and `connection.close`; on a transient cause increment the
attempt counter and schedule a reconnect, on `loggedOut` stop. -/
def closeUpdate (loggedOut : Bool) (s : WAState) : WAState :=
  let s1 : WAState :=
    { isConnecting := false, reconnectTimeoutArmed := s.reconnectTimeoutArmed,
      reconnectAttempts := s.reconnectAttempts, sock := none,
      storeContacts := none, opened := false }
  if loggedOut then s1
  else (scheduleReconnect
          { s1 with reconnectAttempts := s1.reconnectAttempts + 1 }).1

/-- The `connection === 'open'` branch (lines 211-218): reset the flag and
the attempt counter; the socket is untouched. -/
def openUpdate (s : WAState) : WAState :=
  { s with isConnecting := false, reconnectAttempts := 0, opened := true }

end WhatsappConnectionService

/-- One environment-driven transition of `WhatsappConnectionService`. The
connect events carry the guard `sock = none` because in this program
`connectToWhatsApp` is invoked only from `onModuleInit` (socket still null)
and from the reconnect timer, which is armed only after a failed attempt or a
close, both of which null the socket; the timer is cleared whenever a connect
starts. `contactsSync` models the store (bound to the live socket) receiving
contact data; `timerFire` models the armed reconnect timer firing and
clearing its own handle before calling `connectToWhatsApp`. -/
inductive WAStep : WAState → WAState → Prop where
  | connectOk (u : Option String) (s : WAState) :
      s.isConnecting = false → s.sock = none →
      WAStep s (WhatsappConnectionService.connectToWhatsAppOk u s).1
  | connectErr (s : WAState) :
      s.isConnecting = false → s.sock = none →
      WAStep s (WhatsappConnectionService.connectToWhatsAppErr s).1
  | openUpd (s : WAState) (h : WASocketHandle) :
      s.sock = some h →
      WAStep s (WhatsappConnectionService.openUpdate s)
  | closeUpd (loggedOut : Bool) (s : WAState) (h : WASocketHandle) :
      s.sock = some h →
      WAStep s (WhatsappConnectionService.closeUpdate loggedOut s)
  | timerFire (s : WAState) :
      s.reconnectTimeoutArmed = true →
      WAStep s { s with reconnectTimeoutArmed := false }
  | contactsSync (n : Nat) (s : WAState) (h : WASocketHandle) (c : Nat) :
      s.sock = some h → s.storeContacts = some c →
      WAStep s { s with storeContacts := some n }

/-- States of the WhatsApp manager reachable from construction. -/
inductive WAReachable : WAState → Prop where
  | init : WAReachable WhatsappConnectionService.waInit
  | step (s t : WAState) : WAReachable s → WAStep s t → WAReachable t

/-! ## AMQP connection manager state
(src/amqp/amqp-connection.service.ts). -/

/-- Mutable fields of `AmqpConnectionService`, plus the ghost flag `openedA`
marking the Open state of the specification (set when a connect attempt
succeeds, cleared when the connection is lost or closed). `channelPresent`
and `connectionPresent` model the nullness of `channel` and `connection`. -/
structure AmqpState where
  isConnecting : Bool
  reconnectTimeoutArmed : Bool
  reconnectAttempts : Nat
  channelPresent : Bool
  connectionPresent : Bool
  openedA : Bool
  deriving Repr, DecidableEq

namespace AmqpConnectionService

/-- Field values at construction (lines 20-25). -/
def amqpInit : AmqpState :=
  { isConnecting := false, reconnectTimeoutArmed := false,
    reconnectAttempts := 0, channelPresent := false,
    connectionPresent := false, openedA := false }

/-- `isConnected()` (lines 48-51): `!!this.channel`. -/
def isConnected (s : AmqpState) : Bool :=
  s.channelPresent

/-- External effect of a connect attempt. -/
inductive AmqpAction where
  | openConnection
  deriving Repr, DecidableEq

/-- `scheduleReconnect()` (lines 107-127): a no-op when a connect is in
progress or the timer is already armed; otherwise arms the timer for
`amqpReconnectDelay reconnectAttempts`. -/
def scheduleReconnect (s : AmqpState) : AmqpState × Option Nat :=
  if s.isConnecting || s.reconnectTimeoutArmed then (s, none)
  else ({ s with reconnectTimeoutArmed := true },
        some (amqpReconnectDelay s.reconnectAttempts))

/-- `connect()` (lines 53-96) when the attempt succeeds, run atomically: the
entry guard, then flag set, timer cleared, connection and channel created,
attempt counter reset, listeners installed, flag cleared. -/
def connectOk (s : AmqpState) : AmqpState × List AmqpAction :=
  if s.isConnecting then (s, [])
  else
    ({ isConnecting := false, reconnectTimeoutArmed := false,
       reconnectAttempts := 0, channelPresent := true,
       connectionPresent := true, openedA := true },
     [.openConnection])

/-- `connect()` when the attempt throws (lines 86-95): nulls both handles,
clears the flag, increments the attempt counter and schedules a reconnect
(which arms, since the flag is down and the timer was cleared at entry). -/
def connectErr (s : AmqpState) : AmqpState × List AmqpAction :=
  if s.isConnecting then (s, [])
  else
    ((scheduleReconnect
        { isConnecting := false, reconnectTimeoutArmed := false,
          reconnectAttempts := s.reconnectAttempts + 1,
          channelPresent := false, connectionPresent := false,
          openedA := false }).1,
     [])

/-- `handleDisconnect()` (lines 98-105), reached from the connection error
and unexpected-close listeners: when not already reconnecting and a handle
is still present, null both handles and schedule a reconnect. The attempt
counter is not touched here. -/
def handleDisconnect (s : AmqpState) : AmqpState :=
  if !s.isConnecting && (s.channelPresent || s.connectionPresent) then
    (scheduleReconnect
       { s with channelPresent := false, connectionPresent := false,
                openedA := false }).1
  else s

/-- `close()` (lines 136-156), on shutdown: stop reconnecting, reset the
counter, close and null both handles. -/
def close (_s : AmqpState) : AmqpState :=
  { isConnecting := false, reconnectTimeoutArmed := false,
    reconnectAttempts := 0, channelPresent := false,
    connectionPresent := false, openedA := false }

end AmqpConnectionService

/-- One environment-driven transition of `AmqpConnectionService`. -/
inductive AmqpStep : AmqpState → AmqpState → Prop where
  | connectOk (s : AmqpState) :
      s.isConnecting = false →
      AmqpStep s (AmqpConnectionService.connectOk s).1
  | connectErr (s : AmqpState) :
      s.isConnecting = false →
      AmqpStep s (AmqpConnectionService.connectErr s).1
  | disconnect (s : AmqpState) :
      AmqpStep s (AmqpConnectionService.handleDisconnect s)
  | closeStep (s : AmqpState) :
      AmqpStep s (AmqpConnectionService.close s)
  | timerFire (s : AmqpState) :
      s.reconnectTimeoutArmed = true →
      AmqpStep s { s with reconnectTimeoutArmed := false }

/-- States of the AMQP manager reachable from construction. -/
inductive AmqpReachable : AmqpState → Prop where
  | init : AmqpReachable AmqpConnectionService.amqpInit
  | step (s t : AmqpState) : AmqpReachable s → AmqpStep s t → AmqpReachable t

/-! ## Event registry
(src/whatsapp/whatsapp-event-registry.service.ts). -/

/-- A handler as the registry sees it: its declared event name and an
identifier standing for the handler object (used to tell invocations apart).
The repo provides two handlers, `MessagesUpsertHandler` for
`messages.upsert` and `ConnectionUpdateHandler` for `connection.update`. -/
structure EvHandler where
  eventName : String
  id : Nat
  deriving Repr, DecidableEq

/-- The listener table of a socket event emitter: for each `on` call, the
event name and the handler wrapped by the registered closure, in
registration order. The emitter keeps every registration; registering the
same handler again appends a second entry. -/
structure SocketEv where
  listeners : List (String × Nat)
  deriving Repr, DecidableEq

namespace WhatsappEventRegistryService

/-- The handler set provided by the WhatsApp module. -/
def repoHandlers : List EvHandler :=
  [{ eventName := "messages.upsert", id := 0 },
   { eventName := "connection.update", id := 1 }]

/-- `registerHandlers()` (lines 41-85): bail out when `getSocket()` is null;
otherwise call `socket.ev.on(handler.eventName, wrapped)` for every handler,
appending one listener each. No binding state is consulted or recorded. -/
def registerHandlers (handlers : List EvHandler) (socket : Option SocketEv) :
    Option SocketEv :=
  match socket with
  | none => none
  | some sk =>
    some { listeners :=
             sk.listeners ++ handlers.map (fun h => (h.eventName, h.id)) }

/-- `unregisterHandlers()` (lines 88-109): bail out when `getSocket()` is
null; otherwise call `socket.ev.removeAllListeners(handler.eventName)` for
every handler, dropping every listener registered under that event name. -/
def unregisterHandlers (handlers : List EvHandler) (socket : Option SocketEv) :
    Option SocketEv :=
  match socket with
  | none => none
  | some sk =>
    some { listeners :=
             handlers.foldl
               (fun ls h => ls.filter (fun p => p.1 ≠ h.eventName))
               sk.listeners }

/-- Dispatch of one emitter event: every listener registered under the name
is invoked, in registration order; the result is the sequence of handler
identities whose `handle` runs. -/
def dispatch (eventName : String) (sk : SocketEv) : List Nat :=
  (sk.listeners.filter (fun p => p.1 = eventName)).map (fun p => p.2)

/-- `dispatch` lifted to a possibly-null socket (no socket, no dispatch). -/
def dispatchO (eventName : String) (socket : Option SocketEv) : List Nat :=
  match socket with
  | none => []
  | some sk => dispatch eventName sk

end WhatsappEventRegistryService

/-! ## Teardown paths for the bound handler set
(src/whatsapp/whatsapp-connection.service.ts lines 99-116 and 181-210,
interacting with the registry through the `pre-disconnect` event). -/

namespace WhatsappConnectionService

open WhatsappEventRegistryService

/-- The socket pre-cleanup at the top of `connectToWhatsApp` (lines 99-116):
when a previous socket exists, `pre-disconnect` is emitted while `this.sock`
still refers to it, so the registry listener runs `unregisterHandlers`
against that same handle; the handle is then logged out and the field nulled.
Returns the service `sock` field afterwards and the final listener table of
the discarded handle. -/
def reconnectPreCleanup (handlers : List EvHandler)
    (sock : Option SocketEv) : Option SocketEv × Option SocketEv :=
  match sock with
  | none => (none, none)
  | some sk => (none, unregisterHandlers handlers (some sk))

/-- The `connection === 'close'` branch as it affects the handler bindings
(lines 191-199): `this.sock = null` executes first (line 192), and only then
is `pre-disconnect` emitted (line 195); the registry listener therefore runs
`unregisterHandlers` against `getSocket() = null`, which returns without
touching any listener, and the discarded handle keeps its table. Returns the
service `sock` field afterwards and the final listener table of the
discarded handle. -/
def closeBranchCleanup (handlers : List EvHandler)
    (sock : Option SocketEv) : Option SocketEv × Option SocketEv :=
  match sock with
  | none => (none, none)
  | some sk =>
    let sockField : Option SocketEv := none
    let _registryResult := unregisterHandlers handlers sockField
    (sockField, some sk)

end WhatsappConnectionService

/-! ## Inbound message handler: `MessagesUpsertHandler`
(src/whatsapp/handlers/messages-upsert.handler.ts). -/

/-- `message.key` fields the handler reads. -/
structure WAMessageKey where
  fromMe : Bool
  remoteJid : Option String
  id : Option String
  deriving Repr, DecidableEq

/-- The text candidates inside `message.message` in the order the handler
tries them: `conversation`, `extendedTextMessage?.text`,
`buttonsResponseMessage?.selectedDisplayText`, `listResponseMessage?.title`.
A `none` covers both an absent nested object and an absent field. -/
structure WAMessageBody where
  conversation : Option String
  extendedTextMessageText : Option String
  buttonsResponseSelectedDisplayText : Option String
  listResponseMessageTitle : Option String
  deriving Repr, DecidableEq

/-- A `WAMessage` as the handler reads it. `messageStubType` is the numeric
stub-type enum (`none` for absent; the value 0 is JS-falsy). -/
structure WAMessageIn where
  key : WAMessageKey
  message : Option WAMessageBody
  messageStubType : Option Nat
  broadcast : Bool
  pushName : Option String
  messageTimestamp : Option Nat
  deriving Repr, DecidableEq

/-- The payload published to the incoming queue, with the fields the claims
mention (`correlationId` and `waMessageId`/`waTimestamp` are generated or
copied metadata and are elided). -/
structure PublishedMsg where
  «from» : String
  pushName : String
  text : String
  deriving Repr, DecidableEq

/-- JS `a || b` on possibly-absent strings: the left value when truthy,
otherwise the right value as is. -/
def jsOrStr (a b : Option String) : Option String :=
  if truthyStr a then a else b

/-- JS truthiness of a possibly-absent number (`0`, `null` and `undefined`
are falsy). -/
def truthyNat : Option Nat → Bool
  | none => false
  | some n => n ≠ 0

/-- JS `a || d` for a string default `d`: the left value when truthy,
otherwise the default (also when the left value is the empty string). -/
def jsOrDefault (a : Option String) (d : String) : String :=
  match a with
  | some s => if s = "" then d else s
  | none => d

/-- Whitespace for JS `String.prototype.trim`, restricted to the ASCII
whitespace characters (space, tab, line feed, carriage return, vertical
tab, form feed); the further Unicode space code points JS also trims play
no role in any claim. Written over the character list so that it evaluates
inside the kernel. -/
def jsWhitespace (c : Char) : Bool :=
  c = ' ' || c = '\t' || c = '\n' || c = '\r' || c = '\x0b' || c = '\x0c'

/-- JS `trim`: drop whitespace from both ends. -/
def trimStr (s : String) : String :=
  String.mk
    (((s.data.dropWhile jsWhitespace).reverse.dropWhile jsWhitespace).reverse)

namespace MessagesUpsertHandler

/-- `isFilteredMessage` (lines 130-154): the filter rules in source order,
first match wins, returning the recorded criteria string. -/
def isFilteredMessage (m : WAMessageIn) (payloadType : String) :
    Option String :=
  if m.key.fromMe then some "fromMe"
  else if payloadType ≠ "notify" then some "type is not notify"
  else if !truthyStr m.key.remoteJid then some "remoteJid is missing"
  else if m.key.remoteJid = some "status@broadcast" then
    some "remoteJid is status@broadcast"
  else if truthyNat m.messageStubType then some "messageStubType"
  else if m.broadcast then some "broadcast"
  else none

/-- The text extraction (lines 71-75): the JS `||` chain over the four
candidates. Its value is the first truthy candidate, or the last candidate
as is when none is truthy. -/
def extractText (body : Option WAMessageBody) : Option String :=
  jsOrStr (body.bind WAMessageBody.conversation)
    (jsOrStr (body.bind WAMessageBody.extendedTextMessageText)
      (jsOrStr (body.bind WAMessageBody.buttonsResponseSelectedDisplayText)
        (body.bind WAMessageBody.listResponseMessageTitle)))

/-- Processing of a single message of the batch (lines 51-127): apply the
filter, read the sender and the extracted text, drop when the sender is
falsy, the extraction is not a string, or it trims to the empty string;
otherwise publish. Returns the published payload, or `none` when the message
is dropped. A publish failure is caught and logged (line 117-126), so which
payloads are handed to the publisher does not depend on the broker. -/
def processMessage (m : WAMessageIn) (payloadType : String) :
    Option PublishedMsg :=
  if (isFilteredMessage m payloadType).isSome then none
  else
    match m.key.remoteJid, extractText m.message with
    | some sender, some messageText =>
      if sender = "" ∨ trimStr messageText = "" then none
      else some { «from» := sender,
                  pushName := jsOrDefault m.pushName "Unknown",
                  text := messageText }
    | _, _ => none

/-- `handle` over the whole batch (line 51): each message of `messages` is
processed independently; the result is the list of payloads handed to
`messagePublisher.publish`, in order. -/
def handleUpsert (messages : List WAMessageIn) (payloadType : String) :
    List PublishedMsg :=
  messages.filterMap (fun m => processMessage m payloadType)

end MessagesUpsertHandler

/-! ## Concrete inputs used by the claim theorems. -/

/-- A broker delivery whose body `JSON.parse` cannot parse. -/
def msgNotJson : ConsumedMsg :=
  { content := "not-json", properties := { correlationId := none, messageId := none } }

/-- Parse behaviour on such a body: `JSON.parse` throws on every input. -/
def parseFailing : String → Option MessageContent := fun _ => none

/-- Parse behaviour for a valid payload whose `to` is a 14-digit sequence. -/
def parseGroupLen : String → Option MessageContent :=
  fun _ => some { «to» := some "12345678901234", text := some "hi",
                  correlationId := none }

/-- The delivery carrying that payload. -/
def msgGroupLen : ConsumedMsg :=
  { content := "cmd-to-14-digits",
    properties := { correlationId := none, messageId := none } }

/-- The repository handler set bound once to a fresh handle, as after
`registerHandlers` has run against a newly created socket. -/
def boundSock : SocketEv :=
  { listeners := [("messages.upsert", 0), ("connection.update", 1)] }

/-- A WhatsApp manager state with a connect attempt in flight. -/
def waConnecting : WAState :=
  { isConnecting := true, reconnectTimeoutArmed := false,
    reconnectAttempts := 0, sock := none, storeContacts := none,
    opened := false }

/-- An inbound message that passes every filter and whose plain-text body is
a single space while its extended-text body holds real text. -/
def msgSpacePlain : WAMessageIn :=
  { key := { fromMe := false,
             remoteJid := some "5511888887777@s.whatsapp.net",
             id := some "wa-id-1" },
    message := some { conversation := some " ",
                      extendedTextMessageText := some "hello",
                      buttonsResponseSelectedDisplayText := none,
                      listResponseMessageTitle := none },
    messageStubType := none, broadcast := false,
    pushName := some "Alice", messageTimestamp := some 1700000000 }

/-- An inbound message with both the plain-text and the extended-text body
populated with non-blank text. -/
def msgBothBodies : WAMessageIn :=
  { key := { fromMe := false,
             remoteJid := some "5511888887777@s.whatsapp.net",
             id := some "wa-id-2" },
    message := some { conversation := some "hi",
                      extendedTextMessageText := some "quoted",
                      buttonsResponseSelectedDisplayText := none,
                      listResponseMessageTitle := none },
    messageStubType := none, broadcast := false,
    pushName := some "Alice", messageTimestamp := some 1700000001 }

/-- The state the WhatsApp manager reaches from construction when the first
connect attempt creates its socket from restored credentials: the attempt is
still in flight (`isConnecting`, no `open` update yet) but the fresh handle
already carries the restored user identity. -/
def waConnectingRestored : WAState :=
  (WhatsappConnectionService.connectToWhatsAppOk (some "user-1")
    WhatsappConnectionService.waInit).1

/-! ## Theorems settling the claims. -/

open WhatsappSendCommandConsumer WhatsappSenderService
open WhatsappEventRegistryService MessagesUpsertHandler

/-- C1: for every message consumed from the outgoing queue (a non-null
delivery), `handleMessage` issues exactly one delivery outcome — an ack, a
reject without requeue, or a reject with requeue — never more than one
channel operation and never none, except that when the channel handle was
lost between consumption and resolution no operation is issued at all. -/
theorem consumer_exactly_one_outcome
    (parse : String → Option MessageContent)
    (channelOpen waConnected sendResult : Bool) (m : ConsumedMsg) :
    (handleMessage parse channelOpen waConnected sendResult (some m)).ops
        = [ChannelOp.ack] ∨
    (handleMessage parse channelOpen waConnected sendResult (some m)).ops
        = [ChannelOp.nackDiscard] ∨
    (handleMessage parse channelOpen waConnected sendResult (some m)).ops
        = [ChannelOp.nackRequeue] ∨
    ((handleMessage parse channelOpen waConnected sendResult (some m)).ops
        = [] ∧ channelOpen = false) := by
  unfold handleMessage
  cases hp : parse m.content with
  | none => cases channelOpen <;> simp [hp]
  | some content =>
    obtain ⟨cto, ctext, ccorr⟩ := content
    simp only [hp]
    cases channelOpen <;> cases waConnected <;> cases sendResult <;>
      cases cto <;> cases ctext <;> simp [truthyStr] <;>
      split_ifs <;> simp

/-- C10: a null delivery from the broker client makes `handleMessage` return
immediately: no parse result is consulted (the statement holds for every
parse behaviour), the sender is never invoked, and no channel operation is
issued. -/
theorem consumer_null_message_noop
    (parse : String → Option MessageContent)
    (channelOpen waConnected sendResult : Bool) :
    handleMessage parse channelOpen waConnected sendResult none
      = { ops := [], sends := [] } :=
  rfl

/-- C7: both managers compute the reconnect delay as
`min (5000 * 2 ^ attempts) 60000`; the delays for attempts 0, 1, 2, 3 are
5000, 10000, 20000, 40000, and from attempt 4 on the delay is exactly
60000. -/
theorem reconnect_backoff_delays :
    (∀ n, waReconnectDelay n = min (5000 * 2 ^ n) 60000
        ∧ amqpReconnectDelay n = min (5000 * 2 ^ n) 60000)
    ∧ (waReconnectDelay 0 = 5000 ∧ waReconnectDelay 1 = 10000
        ∧ waReconnectDelay 2 = 20000 ∧ waReconnectDelay 3 = 40000)
    ∧ (amqpReconnectDelay 0 = 5000 ∧ amqpReconnectDelay 1 = 10000
        ∧ amqpReconnectDelay 2 = 20000 ∧ amqpReconnectDelay 3 = 40000)
    ∧ (∀ n, 4 ≤ n →
        waReconnectDelay n = 60000 ∧ amqpReconnectDelay n = 60000) := by
  refine ⟨fun n => ⟨rfl, rfl⟩, ⟨by decide, by decide, by decide, by decide⟩,
    ⟨by decide, by decide, by decide, by decide⟩, fun n hn => ?_⟩
  have h16 : (16 : Nat) ≤ 2 ^ n := by
    calc (16 : Nat) = 2 ^ 4 := by norm_num
    _ ≤ 2 ^ n := Nat.pow_le_pow_right (by norm_num) hn
  have hcap : (60000 : Nat) ≤ 5000 * 2 ^ n := by
    calc (60000 : Nat) ≤ 5000 * 16 := by norm_num
    _ ≤ 5000 * 2 ^ n := Nat.mul_le_mul_left 5000 h16
  constructor <;>
    simp only [waReconnectDelay, amqpReconnectDelay, Nat.min_eq_right hcap]

/-- Witness for C7 at attempt 10: its hypothesis `4 ≤ 10` holds and the
clamped delay is 60000 for both managers. -/
theorem reconnect_backoff_delays_witness :
    waReconnectDelay 10 = 60000 ∧ amqpReconnectDelay 10 = 60000 :=
  reconnect_backoff_delays.2.2.2 10 (by decide)

/-- Counterexample to C2 as stated: when the channel handle has been lost,
a payload that fails to parse is NOT rejected — the parse-failure path runs
`this.channel?.nack(...)`, which does nothing on a null channel, so no
channel operation is issued at all and the message is left unresolved. -/
theorem consumer_parse_failure_unresolved_without_channel :
    (handleMessage parseFailing false true true (some msgNotJson)).ops = []
    ∧ (handleMessage parseFailing false true true (some msgNotJson)).ops
        ≠ [ChannelOp.nackDiscard] := by
  refine ⟨by decide, by decide⟩

/-- C2 amended: the fixed step order holds provided the channel handle is
still available when the message is handled; when the channel has been lost,
the message is left unresolved (no channel operation, no send) whatever the
payload. With the channel available: a payload that fails to parse is
rejected without requeue; a parsed payload whose `to` or `text` is missing
or empty is rejected without requeue; when the gateway is not connected the
payload is rejected with requeue and the sender is never invoked; when the
send resolves true the message is acknowledged; when it resolves false the
message is rejected without requeue. -/
theorem consumer_step_order
    (parse : String → Option MessageContent)
    (waConnected sendResult : Bool) (m : ConsumedMsg) :
    (handleMessage parse false waConnected sendResult (some m)
        = { ops := [], sends := [] })
    ∧ (parse m.content = none →
        handleMessage parse true waConnected sendResult (some m)
          = { ops := [ChannelOp.nackDiscard], sends := [] })
    ∧ (∀ c, parse m.content = some c →
        (truthyStr c.«to» && truthyStr c.text) = false →
        handleMessage parse true waConnected sendResult (some m)
          = { ops := [ChannelOp.nackDiscard], sends := [] })
    ∧ (∀ c, parse m.content = some c →
        truthyStr c.«to» = true → truthyStr c.text = true →
        handleMessage parse true false sendResult (some m)
          = { ops := [ChannelOp.nackRequeue], sends := [] })
    ∧ (∀ c toV text, parse m.content = some c →
        c.«to» = some toV → c.text = some text → toV ≠ "" → text ≠ "" →
        handleMessage parse true true true (some m)
          = { ops := [ChannelOp.ack],
              sends := [{ «to» := if includesChar toV '@' then toV
                                    else toV ++ "@s.whatsapp.net",
                          text := text }] })
    ∧ (∀ c toV text, parse m.content = some c →
        c.«to» = some toV → c.text = some text → toV ≠ "" → text ≠ "" →
        handleMessage parse true true false (some m)
          = { ops := [ChannelOp.nackDiscard],
              sends := [{ «to» := if includesChar toV '@' then toV
                                    else toV ++ "@s.whatsapp.net",
                          text := text }] }) := by
  refine ⟨?_, ?_, ?_, ?_, ?_, ?_⟩
  · simp only [handleMessage]
    cases hp : parse m.content <;> simp [hp]
  · intro hp
    simp [handleMessage, hp]
  · intro c hp hv
    simp only [handleMessage]
    rw [hp]
    simp [hv]
  · intro c hp h1 h2
    simp only [handleMessage]
    rw [hp]
    simp [h1, h2]
  · intro c toV text hp hto htext h1 h2
    simp only [handleMessage]
    rw [hp]
    simp [hto, htext, truthyStr, h1, h2]
  · intro c toV text hp hto htext h1 h2
    simp only [handleMessage]
    rw [hp]
    simp [hto, htext, truthyStr, h1, h2]

/-- Witness for C2 amended, exercising the acknowledge branch on the
scenario-A payload with all hypotheses discharged concretely. -/
theorem consumer_step_order_witness :
    handleMessage
        (fun _ => some { «to» := some "5511999999999", text := some "hi",
                         correlationId := none })
        true true true
        (some { content := "scenario-a",
                properties := { correlationId := none, messageId := none } })
      = { ops := [ChannelOp.ack],
          sends := [{ «to» := "5511999999999@s.whatsapp.net",
                      text := "hi" }] } := by
  have h := (consumer_step_order
      (fun _ => some { «to» := some "5511999999999", text := some "hi",
                       correlationId := none })
      true true
      { content := "scenario-a",
        properties := { correlationId := none, messageId := none } }
    ).2.2.2.2.1
    { «to» := some "5511999999999", text := some "hi", correlationId := none }
    "5511999999999" "hi" rfl rfl rfl (by decide) (by decide)
  simpa [(by decide : includesChar "5511999999999" '@' = false)] using h

/-- Counterexample to C3 as stated: for a consumed command whose `to` is a
14-digit sequence (at the length threshold), the consumer passes the
recipient suffixed with the direct-chat domain to the sender, while the
section-4.5 heuristic (`getFormattedJid`) would choose the group domain. -/
theorem consumer_group_length_gets_direct_domain :
    (handleMessage parseGroupLen true true true (some msgGroupLen)).sends
        = [{ «to» := "12345678901234@s.whatsapp.net", text := "hi" }]
    ∧ getFormattedJid "12345678901234" = "12345678901234@g.us"
    ∧ ("12345678901234" : String).length = 14
    ∧ ("12345678901234@s.whatsapp.net" : String)
        ≠ "12345678901234@g.us" := by
  refine ⟨by decide, by decide, by decide, by decide⟩

/-- C3 amended: for every consumed command whose `to` contains no domain
separator, the recipient passed to the sender is the identifier suffixed
with the direct-chat domain, regardless of its length; the length-threshold
group-domain heuristic of `getFormattedJid` is not applied on the consumer
path. -/
theorem consumer_recipient_always_direct_domain
    (parse : String → Option MessageContent) (sendResult : Bool)
    (m : ConsumedMsg) (c : MessageContent) (toV text : String)
    (hc : parse m.content = some c) (hto : c.«to» = some toV)
    (htext : c.text = some text) (hto0 : toV ≠ "") (htext0 : text ≠ "")
    (hat : includesChar toV '@' = false) :
    (handleMessage parse true true sendResult (some m)).sends
      = [{ «to» := toV ++ "@s.whatsapp.net", text := text }] := by
  simp only [handleMessage]
  rw [hc]
  cases sendResult <;> simp [hto, htext, truthyStr, hto0, htext0, hat]

/-- Witness for C3 amended at the 14-digit recipient. -/
theorem consumer_recipient_always_direct_domain_witness :
    (handleMessage parseGroupLen true true true (some msgGroupLen)).sends
      = [{ «to» := "12345678901234" ++ "@s.whatsapp.net", text := "hi" }] :=
  consumer_recipient_always_direct_domain parseGroupLen true msgGroupLen
    { «to» := some "12345678901234", text := some "hi",
      correlationId := none }
    "12345678901234" "hi" rfl rfl rfl (by decide) (by decide) (by decide)

/-- Counterexample to C5 as stated: binding the repository handler set twice
to the same handle without an intervening unbind registers every handler
twice, so dispatching one `messages.upsert` event invokes the
messages-upsert handler (identity 0) twice, not once. -/
theorem registry_double_bind_double_invocation :
    dispatchO "messages.upsert"
        (registerHandlers repoHandlers
          (registerHandlers repoHandlers (some { listeners := [] })))
      = [0, 0]
    ∧ (dispatchO "messages.upsert"
        (registerHandlers repoHandlers
          (registerHandlers repoHandlers (some { listeners := [] })))).length
      ≠ 1 := by
  refine ⟨by decide, by decide⟩

/-- C5 amended: `registerHandlers` tracks no binding state — every call with
a live socket appends one fresh listener per handler, so binding twice
without an intervening unbind registers each handler twice, and one
dispatched event then invokes each matching handler once per bind (twice for
the repository handler set). -/
theorem registry_bind_appends :
    (∀ (hs : List EvHandler) (sk : SocketEv),
        registerHandlers hs (registerHandlers hs (some sk))
          = some { listeners :=
              (sk.listeners ++ hs.map (fun h => (h.eventName, h.id)))
                ++ hs.map (fun h => (h.eventName, h.id)) })
    ∧ dispatchO "connection.update"
        (registerHandlers repoHandlers
          (registerHandlers repoHandlers (some { listeners := [] })))
        = [1, 1] :=
  ⟨fun hs sk => by simp [registerHandlers], by decide⟩

/-- C4: on the reconnect path the discarded handle is fully unbound first,
but on the close path `this.sock` is nulled (line 192) before
`pre-disconnect` is emitted (line 195), so the registry unbind reads a null
socket and removes nothing: every handler remains bound to the stale,
discarded handle, which still dispatches to them. -/
theorem close_path_leaves_stale_bindings :
    (WhatsappConnectionService.reconnectPreCleanup repoHandlers
        (some boundSock)).2 = some { listeners := [] }
    ∧ (WhatsappConnectionService.closeBranchCleanup repoHandlers
        (some boundSock)).2 = some boundSock
    ∧ dispatch "messages.upsert" boundSock ≠ [] := by
  refine ⟨by decide, by decide, by decide⟩

/-- C8: both managers are single-flight. A connect call that finds the
in-progress flag set returns at once: the state is unchanged and nothing is
opened, on the success and the failure variant alike. Scheduling a reconnect
while the timer is already armed or a connect is in flight changes nothing
and arms nothing, so each manager holds at most one pending timer and at
most one in-flight attempt. -/
theorem connect_single_flight :
    (∀ (u : Option String) (s : WAState), s.isConnecting = true →
        WhatsappConnectionService.connectToWhatsAppOk u s = (s, [])
        ∧ WhatsappConnectionService.connectToWhatsAppErr s = (s, []))
    ∧ (∀ s : WAState,
        s.isConnecting = true ∨ s.reconnectTimeoutArmed = true →
        WhatsappConnectionService.scheduleReconnect s = (s, none))
    ∧ (∀ s : AmqpState, s.isConnecting = true →
        AmqpConnectionService.connectOk s = (s, [])
        ∧ AmqpConnectionService.connectErr s = (s, []))
    ∧ (∀ s : AmqpState,
        s.isConnecting = true ∨ s.reconnectTimeoutArmed = true →
        AmqpConnectionService.scheduleReconnect s = (s, none)) := by
  refine ⟨?_, ?_, ?_, ?_⟩
  · intro u s h
    constructor <;>
      simp [WhatsappConnectionService.connectToWhatsAppOk,
        WhatsappConnectionService.connectToWhatsAppErr, h]
  · intro s h
    rcases h with h | h <;>
      simp [WhatsappConnectionService.scheduleReconnect, h]
  · intro s h
    constructor <;>
      simp [AmqpConnectionService.connectOk,
        AmqpConnectionService.connectErr, h]
  · intro s h
    rcases h with h | h <;>
      simp [AmqpConnectionService.scheduleReconnect, h]

/-- Witness for C8: at a state with a connect in flight, a second connect
call and a reconnect schedule are both no-ops. -/
theorem connect_single_flight_witness :
    WhatsappConnectionService.connectToWhatsAppOk none waConnecting
        = (waConnecting, [])
    ∧ WhatsappConnectionService.scheduleReconnect waConnecting
        = (waConnecting, none) :=
  ⟨(connect_single_flight.1 none waConnecting rfl).1,
   connect_single_flight.2.1 waConnecting (Or.inl rfl)⟩

/-- Counterexample to C9 as stated: `msgSpacePlain` passes every filter, its
sender is present, and one of its candidates (the extended-text body) trims
to non-empty text, so by the claim it is published with the first non-empty
candidate; but the code selects the first truthy candidate — the single
space — and drops the message because that chosen candidate trims to empty,
so nothing is ever published for it. -/
theorem extraction_blank_first_candidate_drops :
    isFilteredMessage msgSpacePlain "notify" = none
    ∧ extractText msgSpacePlain.message = some " "
    ∧ trimStr "hello" ≠ ""
    ∧ processMessage msgSpacePlain "notify" = none
    ∧ handleUpsert [msgSpacePlain] "notify" = [] := by
  refine ⟨by decide, by decide, by decide, by decide, by decide⟩

/-- C9 amended: for every non-dropped inbound message, extraction tries the
candidates in the fixed precedence — plain text body, extended/quoted text
body, button-reply display text, list-reply title — and the first non-empty
candidate wins (in particular a populated plain-text body beats a populated
extended-text body). The message is dropped as unparseable and never
published when the sender is absent or empty, when no candidate is
non-empty, or when the chosen first non-empty candidate trims to the empty
string (even if a later candidate would trim to non-empty text); filtered
messages are likewise never published. -/
theorem extraction_precedence :
    (∀ (body : WAMessageBody) (c : String),
        body.conversation = some c → c ≠ "" →
        extractText (some body) = some c)
    ∧ (∀ (body : WAMessageBody) (e : String),
        truthyStr body.conversation = false →
        body.extendedTextMessageText = some e → e ≠ "" →
        extractText (some body) = some e)
    ∧ (∀ (body : WAMessageBody) (b : String),
        truthyStr body.conversation = false →
        truthyStr body.extendedTextMessageText = false →
        body.buttonsResponseSelectedDisplayText = some b → b ≠ "" →
        extractText (some body) = some b)
    ∧ (∀ (body : WAMessageBody),
        truthyStr body.conversation = false →
        truthyStr body.extendedTextMessageText = false →
        truthyStr body.buttonsResponseSelectedDisplayText = false →
        extractText (some body) = body.listResponseMessageTitle)
    ∧ (∀ (m : WAMessageIn) (pt : String) (sender t : String),
        isFilteredMessage m pt = none →
        m.key.remoteJid = some sender → sender ≠ "" →
        extractText m.message = some t → trimStr t ≠ "" →
        processMessage m pt
          = some { «from» := sender,
                   pushName := jsOrDefault m.pushName "Unknown",
                   text := t })
    ∧ (∀ (m : WAMessageIn) (pt : String) (t : String),
        extractText m.message = some t → trimStr t = "" →
        processMessage m pt = none)
    ∧ (∀ (m : WAMessageIn) (pt : String),
        extractText m.message = none → processMessage m pt = none)
    ∧ (∀ (m : WAMessageIn) (pt : String),
        m.key.remoteJid = none → processMessage m pt = none)
    ∧ (∀ (m : WAMessageIn) (pt : String),
        isFilteredMessage m pt ≠ none → processMessage m pt = none) := by
  refine ⟨?_, ?_, ?_, ?_, ?_, ?_, ?_, ?_, ?_⟩
  · intro body c hc hne
    simp [extractText, jsOrStr, hc, truthyStr, hne]
  · intro body e h1 he hne
    have he2 : truthyStr body.extendedTextMessageText = true := by
      simp [he, truthyStr, hne]
    simp [extractText, jsOrStr, h1, he2, he]
    simp [truthyStr, hne]
  · intro body b h1 h2 hb hne
    have hb2 : truthyStr body.buttonsResponseSelectedDisplayText = true := by
      simp [hb, truthyStr, hne]
    simp [extractText, jsOrStr, h1, h2, hb2, hb]
    simp [truthyStr, hne]
  · intro body h1 h2 h3
    simp [extractText, jsOrStr, h1, h2, h3]
  · intro m pt sender t hf hrj hs ht htr
    simp [processMessage, hf, hrj, ht, hs, htr]
  · intro m pt t ht htr
    cases hrj : m.key.remoteJid <;>
      simp [processMessage, hrj, ht, htr]
  · intro m pt ht
    cases hrj : m.key.remoteJid <;>
      simp [processMessage, hrj, ht]
  · intro m pt hrj
    cases ht : extractText m.message <;>
      simp [processMessage, hrj, ht]
  · intro m pt hf
    simp [processMessage, Option.ne_none_iff_isSome.mp hf]

/-- Witness for C9 amended: with both text bodies populated the plain-text
body is chosen and published. -/
theorem extraction_precedence_witness :
    processMessage msgBothBodies "notify"
      = some { «from» := "5511888887777@s.whatsapp.net",
               pushName := "Alice", text := "hi" } := by
  have h := extraction_precedence.2.2.2.2.1 msgBothBodies "notify"
    "5511888887777@s.whatsapp.net" "hi" (by decide) rfl (by decide)
    (by decide) (by decide)
  simpa using h

/-- Counterexample to C6 as stated: in the reachable state where the first
connect attempt has created its socket from restored credentials, the
manager is still Connecting (no `open` update has arrived), yet
`isConnected()` already returns true, because `sock.user` is populated at
socket creation from the stored identity. -/
theorem wa_isConnected_true_while_connecting :
    WAReachable waConnectingRestored
    ∧ WhatsappConnectionService.isConnected waConnectingRestored = true
    ∧ waConnectingRestored.opened = false
    ∧ waConnectingRestored.isConnecting = true := by
  refine ⟨WAReachable.step _ _ WAReachable.init
      (WAStep.connectOk (some "user-1") WhatsappConnectionService.waInit
        rfl rfl),
    by decide, by decide, by decide⟩

/-- C6 amended: the AMQP manager's `isConnected()` (channel handle non-null)
is true only in the Open state — in every reachable state it implies the
connection was opened and not yet lost or closed. The WhatsApp manager's
`isConnected()` is false whenever its handle is null (in every reachable
state with `sock = null` the store is also empty), but it is not restricted
to the Open state: with restored credentials it already returns true while
Connecting, before the `open` update. -/
theorem isConnected_only_when_open :
    (∀ s : AmqpState, AmqpReachable s →
        AmqpConnectionService.isConnected s = true → s.openedA = true)
    ∧ (∀ s : WAState, WAReachable s → s.sock = none →
        WhatsappConnectionService.isConnected s = false) := by
  constructor
  · have inv : ∀ s : AmqpState, AmqpReachable s →
        s.channelPresent = s.openedA := by
      intro s hs
      induction hs with
      | init => rfl
      | step sPrev tCur hr hstep ih =>
        cases hstep with
        | connectOk h =>
          simp [AmqpConnectionService.connectOk, h]
        | connectErr h =>
          simp [AmqpConnectionService.connectErr,
            AmqpConnectionService.scheduleReconnect, h]
        | disconnect =>
          unfold AmqpConnectionService.handleDisconnect
          split
          · unfold AmqpConnectionService.scheduleReconnect
            split <;> rfl
          · exact ih
        | closeStep => rfl
        | timerFire h => simpa using ih
    intro s hs h
    rw [← inv s hs]
    exact h
  · intro s0 hs
    induction hs with
    | init => intro _; rfl
    | step sPrev tCur hr hstep ih =>
      cases hstep with
      | connectOk =>
        intro hres
        simp_all [WhatsappConnectionService.connectToWhatsAppOk]
      | connectErr =>
        intro _
        simp_all [WhatsappConnectionService.connectToWhatsAppErr,
          WhatsappConnectionService.scheduleReconnect,
          WhatsappConnectionService.isConnected]
      | openUpd =>
        intro hres
        simp_all [WhatsappConnectionService.openUpdate]
      | closeUpd =>
        intro _
        unfold WhatsappConnectionService.closeUpdate
          WhatsappConnectionService.scheduleReconnect
        split
        · simp [WhatsappConnectionService.isConnected]
        · cases harm : sPrev.reconnectTimeoutArmed <;>
            simp [WhatsappConnectionService.isConnected, harm]
      | timerFire =>
        intro h
        have hip := ih (by simpa using h)
        simpa [WhatsappConnectionService.isConnected] using hip
      | contactsSync =>
        intro hres
        simp_all

/-- Witness for C6 amended: after a successful AMQP connect from the initial
state the manager reports connected and is indeed Open, and at the WhatsApp
initial state (null handle) `isConnected()` reports false. -/
theorem isConnected_only_when_open_witness :
    (AmqpConnectionService.connectOk AmqpConnectionService.amqpInit).1.openedA
        = true
    ∧ WhatsappConnectionService.isConnected WhatsappConnectionService.waInit
        = false :=
  ⟨isConnected_only_when_open.1
      (AmqpConnectionService.connectOk AmqpConnectionService.amqpInit).1
      (AmqpReachable.step _ _ AmqpReachable.init
        (AmqpStep.connectOk AmqpConnectionService.amqpInit rfl))
      rfl,
   isConnected_only_when_open.2 WhatsappConnectionService.waInit
      WAReachable.init rfl⟩

end WhatsappBot
